import Mathlib

/-!
Verification of the `scalable-irl` repository core: the state-graph MDP
representation and the BIRL reward-search components.

Conventions of the embedding:
* Python floats are modelled as rationals (`ℚ`); the structural claims
  checked here (coordinate updates, normalisation, no-op behaviour) are
  exact-arithmetic properties.
* `numpy.exp`, `numpy.sqrt(2*pi)` and the real power `gamma ** time` are
  transcendental; they are threaded through as abstract function/constant
  parameters, with only the facts the code relies on (positivity,
  `gamma ** 0 = 1`) taken as hypotheses.
* Python exceptions (failed `assert`, `networkx` errors) are modelled with
  `Except String`; `warnings.warn` is modelled by returning the list of
  warning messages emitted alongside the result, since warnings do not
  interrupt execution.
* `None` returned by a Python function is modelled by `Option.none`.
-/

/-- Reward vectors are fixed-length numeric vectors, embedded as `List ℚ`. -/
def RewardVec : Type := List ℚ

namespace BirlBase

/-! Embeddings from `src/sirl/algorithms/birl/base.py`. -/

/-- Division of every entry of a batch by a common scalar, the `rp / np.sum(rp)`
broadcast used by the reward priors. -/
def npDivAll (l : List ℚ) (s : ℚ) : List ℚ :=
  l.map (fun x => x / s)

/-- UniformRewardPrior.__call__ (base.py lines 40-43):
`rp = np.ones(r.shape[0]); return rp / np.sum(rp)`. -/
def UniformRewardPrior.call (r : List ℚ) : List ℚ :=
  let rp := List.replicate r.length (1 : ℚ)
  npDivAll rp rp.sum

/-- GaussianRewardPrior.__call__ (base.py lines 55-58):
`rp = np.exp(-np.square(r)/(2.0*sigma**2)) / np.sqrt(2.0*np.pi) * sigma;
return rp / np.sum(rp)`. `expQ` stands for `np.exp` and `sqrt2pi` for
`np.sqrt(2.0*np.pi)`, both abstract here. -/
def GaussianRewardPrior.call (expQ : ℚ → ℚ) (sqrt2pi sigma : ℚ) (r : List ℚ) : List ℚ :=
  let rp := r.map (fun x => expQ (-(x * x) / (2 * sigma * sigma)) / sqrt2pi * sigma)
  npDivAll rp rp.sum

/-- LaplacianRewardPrior.__call__ (base.py lines 71-73):
`rp = np.exp(-np.fabs(r)/(2.0*sigma)) / (2.0*sigma); return rp / np.sum(rp)`. -/
def LaplacianRewardPrior.call (expQ : ℚ → ℚ) (sigma : ℚ) (r : List ℚ) : List ℚ :=
  let rp := r.map (fun x => expQ (-(abs x) / (2 * sigma)) / (2 * sigma))
  npDivAll rp rp.sum

end BirlBase

namespace GraphBirl

/-! Embeddings from `src/sirl/algorithms/graph_birl.py`. -/

/-- UniformRewardPrior.__call__ (graph_birl.py lines 42-43): `return r`
(no normalisation). -/
def UniformRewardPrior.call (r : List ℚ) : List ℚ := r

/-- GaussianRewardPrior.__call__ (graph_birl.py lines 55-57): returns the
unnormalised `np.exp(-np.square(r)/(2.0*sigma**2)) / np.sqrt(2.0*np.pi) * sigma`. -/
def GaussianRewardPrior.call (expQ : ℚ → ℚ) (sqrt2pi sigma : ℚ) (r : List ℚ) : List ℚ :=
  r.map (fun x => expQ (-(x * x) / (2 * sigma * sigma)) / sqrt2pi * sigma)

/-- LaplacianRewardPrior.__call__ (graph_birl.py lines 70-71): returns the
unnormalised `np.exp(-np.fabs(r)/(2.0*sigma)) / (2.0*sigma)`. -/
def LaplacianRewardPrior.call (expQ : ℚ → ℚ) (sigma : ℚ) (r : List ℚ) : List ℚ :=
  r.map (fun x => expQ (-(abs x) / (2 * sigma)) / (2 * sigma))

end GraphBirl

/-! ### PolicyWalk proposal

Both variants perturb one coordinate of `loc` by a step drawn from a fixed
menu, looping until the bound check accepts.  `base.py` line 107 draws from
`[-delta, delta]`; `graph_birl.py` line 224 draws from `[-delta, 0, delta]`.
A random draw is a pair `(d, i)`: the drawn step `d = choice(menu)` and the
coordinate `i = randint(dim)`.  The unbounded retry loop is run on an
explicit finite list of draws; `none` means the supplied draws were
exhausted without an accepted move (the Python loop would keep drawing), or
an out-of-range coordinate index (a Python `IndexError`). -/

/-- Step menu of the PolicyWalk proposal: `[-delta, delta]` in the two-step
variant (base.py), `[-delta, 0, delta]` in the zero-step variant
(graph_birl.py). -/
def pwMenu (zeroStep : Bool) (delta : ℚ) : List ℚ :=
  if zeroStep then [-delta, 0, delta] else [-delta, delta]

/-- PolicyWalkProposal.__call__ body (base.py lines 103-116 and graph_birl.py
lines 220-233): the `while not changed` loop, consuming one `(d, i)` draw per
iteration.  When `bounded`, the move is accepted only if
`-1 <= new_loc[i] + d <= 1`; otherwise the first move is accepted. -/
def policyWalkPropose (bounded : Bool) (loc : List ℚ) :
    List (ℚ × Nat) → Option (List ℚ)
  | [] => none
  | (d, i) :: rest =>
    match loc[i]? with
    | none => none
    | some x =>
      if bounded then
        if -1 ≤ x + d ∧ x + d ≤ 1 then some (loc.set i (x + d))
        else policyWalkPropose bounded loc rest
      else some (loc.set i (x + d))

/-- GBIRLPolicyWalk.find_next_reward (graph_birl.py lines 251-253): the body
is `pass`, so the call returns `None` for every pair of trajectory sets. -/
def GBIRLPolicyWalk.find_next_reward {T : Type} (e_trajs g_trajs : T) :
    Option RewardVec :=
  none

/-! ### StateGraph (`src/sirl/models/state_graph.py`)

The graph wraps a `networkx.DiGraph` (1.x API).  Nodes and edges are stored
here as association lists in insertion order; node identifiers are the small
non-negative integers the repository uses.  CPython iterates a `set` (and a
Python-2 `dict`) of small non-negative integers in ascending numeric order
(integers hash to themselves), so `set(self.G.nodes()) - ...` is modelled by
sorting the identifiers ascending (`pySet`). -/

/-- Values a node attribute can hold: a state vector (`data`), a scalar
(`cost`, `priority`, `V`), a Q-value list (`Q`), an action index (`pi`) or a
categorical tag (`type`). -/
inductive AttrVal where
  | vec (v : List ℚ)
  | num (q : ℚ)
  | idx (n : Nat)
  | qlist (l : List ℚ)
  | str (s : String)
deriving DecidableEq, Repr

/-- Per-node attributes, the keyword arguments of `add_node`. -/
structure NodeData where
  data : List ℚ
  cost : ℚ
  priority : ℚ
  qvals : List ℚ
  v : ℚ
  pi : Nat
  ntype : String
deriving DecidableEq, Repr, Inhabited

/-- Per-edge attributes, the keyword arguments of `add_edge`. -/
structure EdgeData where
  duration : ℚ
  reward : ℚ
  phi : List ℚ
  traj : List (List ℚ)
deriving DecidableEq, Repr, Inhabited

/-- The StateGraph: nodes and directed edges with attributes, kept in
insertion order. -/
structure StateGraph where
  stateDim : Nat
  nodes : List (Nat × NodeData)
  edges : List ((Nat × Nat) × EdgeData)
deriving DecidableEq, Repr, Inhabited

/-- CPython iteration order of a set of small non-negative integers:
ascending numeric order (small ints hash to themselves). -/
def pySet (l : List Nat) : List Nat :=
  List.insertionSort (fun a b => a ≤ b) l.dedup

/-- Node identifiers in insertion order (the keys of the underlying graph). -/
def StateGraph.nodeIds (g : StateGraph) : List Nat :=
  g.nodes.map Prod.fst

/-- Membership test `nid in self.G`. -/
def StateGraph.hasNode (g : StateGraph) (nid : Nat) : Bool :=
  g.nodeIds.contains nid

/-- StateGraph.edge_exists / `self.G.has_edge(source, target)`. -/
def StateGraph.hasEdge (g : StateGraph) (source target : Nat) : Bool :=
  g.edges.any (fun e => e.1 = (source, target))

/-- Attribute record of a node, when present. -/
def StateGraph.getNode (g : StateGraph) (nid : Nat) : Option NodeData :=
  (g.nodes.find? (fun p => p.1 = nid)).map Prod.snd

/-- Attribute record of an edge, when present. -/
def StateGraph.getEdge (g : StateGraph) (source target : Nat) : Option EdgeData :=
  (g.edges.find? (fun e => e.1 = (source, target))).map Prod.snd

/-- The `_node_attrs` allow-list (state_graph.py line 20). -/
def nodeAttrNames : List String :=
  ["data", "cost", "priority", "Q", "V", "pi", "type"]

/-- Attribute lookup inside a node record by attribute name. -/
def NodeData.attr (nd : NodeData) (attrName : String) : AttrVal :=
  if attrName = "data" then .vec nd.data
  else if attrName = "cost" then .num nd.cost
  else if attrName = "priority" then .num nd.priority
  else if attrName = "Q" then .qlist nd.qvals
  else if attrName = "V" then .num nd.v
  else if attrName = "pi" then .idx nd.pi
  else .str nd.ntype

/-- StateGraph.gna (state_graph.py lines 82-91): `_check_node_attributes`
asserts the attribute name is in `_node_attrs` and the node exists, then
returns the stored value.  A failed `assert` is an `AssertionError`. -/
def StateGraph.gna (g : StateGraph) (nid : Nat) (attrName : String) :
    Except String AttrVal :=
  if ¬ nodeAttrNames.contains attrName then
    .error "AssertionError: invalid attribute"
  else
    match g.getNode nid with
    | none => .error "AssertionError: node absent"
    | some nd => .ok (nd.attr attrName)

/-- The allow-list of StateGraph.get_signal (state_graph.py line 194). -/
def signalNames : List String :=
  ["cost", "policy", "priority", "V", "Q"]

/-- StateGraph.get_signal (state_graph.py lines 176-195): assert the name is
a known signal, then collect `gna(n, name)` over the nodes; the first failing
`gna` aborts the list comprehension with its `AssertionError`. -/
def StateGraph.get_signal (g : StateGraph) (name : String) :
    Except String (List AttrVal) :=
  if ¬ signalNames.contains name then
    .error "AssertionError: invalid signal"
  else
    g.nodeIds.mapM (fun n => g.gna n name)

/-- Ragged-ness check behind `asarray(traj).ndim == 2` for a list of rows:
the array is 2-dimensional exactly when there is at least one row and all
rows have equal length (otherwise numpy builds a 1-dim object array). -/
def isNdim2 (traj : List (List ℚ)) : Bool :=
  match traj with
  | [] => false
  | row :: rest => rest.all (fun r => r.length = row.length)

/-- StateGraph.add_edge (state_graph.py lines 46-64): assert `duration >= 0`
and a 2-dim trajectory, then warn-and-skip on a self loop, insert when the
edge is new, warn-and-skip when it already exists.  The returned list holds
the warning messages emitted. -/
def StateGraph.add_edge (g : StateGraph) (source target : Nat)
    (duration reward : ℚ) (phi : List ℚ) (traj : List (List ℚ)) :
    Except String (StateGraph × List String) :=
  if ¬ (0 ≤ duration) then .error "AssertionError: Duration must be positive"
  else if ¬ isNdim2 traj then .error "AssertionError: Expecting a 2-dim trajectory"
  else if source = target then
    .ok (g, ["warn: source and target nodes are the same"])
  else if ¬ g.hasEdge source target then
    .ok ({ g with edges := g.edges ++ [((source, target), ⟨duration, reward, phi, traj⟩)] }, [])
  else
    .ok (g, ["warn: edge already exists in the graph"])

/-- StateGraph.remove_edge (state_graph.py lines 66-72): a self loop only
emits a warning, then `self.G.remove_edge(source, target)` runs
unconditionally; `networkx` raises `NetworkXError` when the edge is absent,
and removes the edge when present. -/
def StateGraph.remove_edge (g : StateGraph) (source target : Nat) :
    Except String (StateGraph × List String) :=
  let warns := if source = target then
    ["warn: source and target nodes are the same"] else []
  if g.hasEdge source target then
    .ok ({ g with edges := g.edges.filter (fun e => ¬ e.1 = (source, target)) }, warns)
  else
    .error "NetworkXError: the edge is no longer in the graph"

/-- Squared planar Euclidean distance used by `eud` (state_graph.py lines
282-283): only the first two components of the `data` vectors enter. -/
def eudSq (d1 d2 : List ℚ) : ℚ :=
  (d1.getD 0 0 - d2.getD 0 0) * (d1.getD 0 0 - d2.getD 0 0) +
    (d1.getD 1 0 - d2.getD 1 0) * (d1.getD 1 0 - d2.getD 1 0)

/-- The comparison `eud(d1, d2) <= distance` without square roots: for a
non-negative radicand `s`, `sqrt s <= d` holds over the reals exactly when
`0 <= d` and `s <= d * d`. -/
def eudLe (d1 d2 : List ℚ) (distance : ℚ) : Bool :=
  decide (0 ≤ distance ∧ eudSq d1 d2 ≤ distance * distance)

/-- StateGraph.find_neighbors_range (state_graph.py lines 129-139):
`serch_set = set(self.G.nodes()) - {nid}` (so the queried node is removed),
then a filter by Euclidean distance to the queried node's `data`.  `none`
models the `AssertionError` of `gna` when `nid` is absent. -/
def StateGraph.find_neighbors_range (g : StateGraph) (nid : Nat)
    (distance : ℚ) : Option (List Nat) :=
  (g.getNode nid).map (fun cn =>
    (pySet (g.nodeIds.filter (fun n => n ≠ nid))).filter
      (fun n => eudLe ((g.getNode n).getD default).data cn.data distance))

/-- Comparison used to model `sorted(distances.items(), key=lambda x: x[1])`:
Python's sort is stable and the input id list is strictly ascending (set
iteration order), so sorting stably by distance coincides with sorting by
the lexicographic order on (distance, id).  Comparing squared distances is
equivalent to comparing the distances themselves since `sqrt` is strictly
monotone on non-negatives. -/
def distLex (p q : Nat × ℚ) : Prop :=
  p.2 < q.2 ∨ (p.2 = q.2 ∧ p.1 ≤ q.1)

instance : DecidableRel distLex := fun p q => by
  unfold distLex; infer_instance

instance : IsTotal (Nat × ℚ) distLex :=
  ⟨fun p q => by
    unfold distLex
    rcases lt_trichotomy p.2 q.2 with h | h | h
    · exact Or.inl (Or.inl h)
    · rcases le_total p.1 q.1 with h1 | h1
      · exact Or.inl (Or.inr ⟨h, h1⟩)
      · exact Or.inr (Or.inr ⟨h.symm, h1⟩)
    · exact Or.inr (Or.inl h)⟩

instance : IsTrans (Nat × ℚ) distLex :=
  ⟨fun p q r hpq hqr => by
    unfold distLex at *
    rcases hpq with h1 | ⟨h1, h1'⟩
    · rcases hqr with h2 | ⟨h2, _⟩
      · exact Or.inl (h1.trans h2)
      · exact Or.inl (h2 ▸ h1)
    · rcases hqr with h2 | ⟨h2, h2'⟩
      · exact Or.inl (h1 ▸ h2)
      · exact Or.inr ⟨h1.trans h2, h1'.trans h2'⟩⟩

/-- The `(node, squared distance to nid)` pairs over
`serch_set = set(self.G.nodes()) - {nid}`, in set-iteration order
(state_graph.py lines 143-145). -/
def StateGraph.othersWithDist (g : StateGraph) (nid : Nat) (cn : List ℚ) :
    List (Nat × ℚ) :=
  (pySet (g.nodeIds.filter (fun n => n ≠ nid))).map
    (fun n => (n, eudSq ((g.getNode n).getD default).data cn))

/-- StateGraph.find_neighbors_k (state_graph.py lines 141-148): build the
distance map over the other nodes, sort stably by distance, keep the first
`k` identifiers. -/
def StateGraph.find_neighbors_k (g : StateGraph) (nid k : Nat) :
    Option (List Nat) :=
  (g.getNode nid).map (fun nd =>
    ((List.insertionSort distLex (g.othersWithDist nid nd.data)).take k).map Prod.fst)

/-- StateGraph.out_edges (state_graph.py lines 158-160) as the list of
`(source, target)` pairs with the given source; `networkx` returns `[]` for
a node that is absent. -/
def StateGraph.out_edges (g : StateGraph) (nid : Nat) : List (Nat × Nat) :=
  (g.edges.filter (fun e => e.1.1 = nid)).map Prod.fst

/-- The inner `metric(a, b)` closure of StateGraph.search_path
(state_graph.py lines 169-172): it tests and reads the **enclosing** call's
`(source, target)` edge, ignoring its own arguments `a` and `b`. -/
def StateGraph.search_path_metric (g : StateGraph) (source target : Nat)
    (a b : Nat) : ℚ :=
  if g.hasEdge source target then
    -1 * ((g.getEdge source target).getD default).reward
  else 1000

/-- The `np.dot(reward, phi)` product; the embedding truncates to the common
length (the repository always supplies equal lengths). -/
def npDot (a b : List ℚ) : ℚ :=
  ((a.zip b).map (fun p => p.1 * p.2)).sum

/-- Body of the per-trajectory loop of
GeneratingTrajectoryBIRL._expert_trajectory_quality (base.py lines 272-284):
walk the node sequence with an elapsed-time accumulator; at a node with
outgoing edges follow the edge indexed by the node's `pi` and accumulate the
discounted feature reward, at a terminal node accumulate the discounted
terminal constant `gr = 100` and keep walking.  `gpow` is the abstract real
power `time ↦ gamma ** time`; `none` models the Python errors on a bad `pi`
index or absent node. -/
def trajQualityGo (g : StateGraph) (gpow : ℚ → ℚ) (reward : List ℚ) :
    List Nat → ℚ → ℚ → Option ℚ
  | [], _, qe => some qe
  | n :: rest, time, qe =>
    let actions := g.out_edges n
    if actions.isEmpty then
      trajQualityGo g gpow reward rest time (qe + gpow time * 100)
    else
      match g.getNode n with
      | none => none
      | some nd =>
        match actions[nd.pi]? with
        | none => none
        | some e =>
          match g.getEdge e.1 e.2 with
          | none => none
          | some ed =>
            trajQualityGo g gpow reward rest (time + ed.duration)
              (qe + gpow time * npDot reward ed.phi)

/-- GeneratingTrajectoryBIRL._expert_trajectory_quality (base.py lines
265-285): one discounted quality scalar per expert trajectory. -/
def expert_trajectory_quality (g : StateGraph) (gpow : ℚ → ℚ)
    (reward : List ℚ) (demos : List (List Nat)) : List (Option ℚ) :=
  demos.map (fun traj => trajQualityGo g gpow reward traj 0 0)

/-! ### GBIRL.solve (`graph_birl.py` lines 100-153)

The loop body calls `_compute_policy` (graph_birl.py lines 139-153, in the
repository source), which recomputes every edge reward as
`np.dot(phi, reward)` and writes it back with `sea` before running the
external policy solver.  When `reward` is `None` — as it is from the first
iteration on, since `GBIRLPolicyWalk.find_next_reward` is a `pass` body —
`np.dot(phi, None)` raises a `TypeError` at the first edge whose feature
vector is non-empty, so that error path is embedded explicitly with
`Except`.  The pieces outside `src/` (`_initial_reward` on the ModelMixin,
`graph_policy_iteration` from `mdp_solvers`, the representation's
`_find_best_policies`, and the `graph.policy` accessor read only to produce
the ignored return value) are modelled from the spec as opaque parameters
(`initReward`, `policyIter`, `gen`). -/

/-- The `np.dot(phi, reward)` of `_compute_policy` with a possibly-`None`
reward: numpy treats `None` as a 0-dim object scalar, so the product raises
`TypeError` as soon as one float element is multiplied by `None`; over an
empty `phi` the object ufunc touches no element and no error is raised. -/
def npDotPy (a : List ℚ) : Option (List ℚ) → Except String ℚ
  | some r => .ok (npDot a r)
  | none =>
    if a.isEmpty then .ok 0
    else .error "TypeError: unsupported operand for np.dot with None"

/-- The edge-reward loop of GBIRL._compute_policy (graph_birl.py lines
145-148): for each edge in order, read `phi`, form `np.dot(phi, reward)`
and store it in the edge's `reward` attribute; the first failing product
aborts with its `TypeError`. -/
def seaRewardsFromDot (reward : Option (List ℚ)) :
    List ((Nat × Nat) × EdgeData) → Except String (List ((Nat × Nat) × EdgeData))
  | [] => .ok []
  | e :: rest => do
    let r ← npDotPy e.2.phi reward
    let rest2 ← seaRewardsFromDot reward rest
    pure ((e.1, { e.2 with reward := r }) :: rest2)

/-- GBIRL._compute_policy (graph_birl.py lines 139-153) up to the external
policy solver: rewrite all edge rewards from the reward vector, propagating
the `np.dot` error; the subsequent `graph_policy_iteration` call and the
`graph.policy` read are outside `src/` and are applied by the caller
through the `policyIter` parameter. -/
def GBIRL.compute_policy (g : StateGraph) (reward : Option (List ℚ)) :
    Except String StateGraph := do
  let edges ← seaRewardsFromDot reward g.edges
  pure { g with edges := edges }

/-- Iteration loop of GBIRL.solve (graph_birl.py lines 109-117): each
iteration overwrites `reward` with `find_next_reward(e_trajs, g_trajs)`,
runs `_compute_policy` on it (which may raise), applies the external policy
solver `policyIter` and regenerates `g_trajs` with the external `gen`. -/
def GBIRL.solveIter {T : Type} (policyIter : StateGraph → StateGraph)
    (gen : StateGraph → T) (e_trajs : T)
    (findNext : T → T → Option (List ℚ)) :
    Nat → StateGraph → Option (List ℚ) → T → Except String (Option (List ℚ))
  | 0, _, reward, _ => .ok reward
  | Nat.succ n, g, _, g_trajs => do
    let reward := findNext e_trajs g_trajs
    let g2 ← GBIRL.compute_policy g reward
    let g3 := policyIter g2
    GBIRL.solveIter policyIter gen e_trajs findNext n g3 reward (gen g3)

/-- GBIRL.solve (graph_birl.py lines 100-117): obtain the initial reward
(outside `src/`), run `_compute_policy` and the external solver on it,
generate the initial trajectory batch, then iterate `max_iter` times and
return the final `reward` — unless an iteration raises. -/
def GBIRL.solveExec {T : Type} (g : StateGraph) (maxIter : Nat) (e_trajs : T)
    (initReward : Option (List ℚ)) (findNext : T → T → Option (List ℚ))
    (policyIter : StateGraph → StateGraph) (gen : StateGraph → T) :
    Except String (Option (List ℚ)) := do
  let g1 ← GBIRL.compute_policy g initReward
  let g2 := policyIter g1
  GBIRL.solveIter policyIter gen e_trajs findNext maxIter g2 initReward (gen g2)

/-- The sorted ranking underlying `find_neighbors_k`: the other nodes with
their squared distances, ordered by the lexicographic (distance, id)
comparison. -/
def rankingOf (g : StateGraph) (nid : Nat) (cn : List ℚ) : List (Nat × ℚ) :=
  List.insertionSort distLex (g.othersWithDist nid cn)

/-- Stable sort of (id, distance) pairs by distance only, written from the
spec's words ("ties broken by input iteration order, stable sort") for
comparison against the embedded `find_neighbors_k`; `List.insertionSort`
is stable, keeping the earlier of two tied pairs first. -/
def stableSortByDist (l : List (Nat × ℚ)) : List (Nat × ℚ) :=
  List.insertionSort (fun p q => p.2 ≤ q.2) l

/-- The other nodes paired with their squared distances in **insertion**
order, the order the spec's tie-break sentence refers to. -/
def StateGraph.othersInInsertionOrder (g : StateGraph) (nid : Nat)
    (cn : List ℚ) : List (Nat × ℚ) :=
  ((g.nodes.map Prod.fst).filter (fun n => n ≠ nid)).map
    (fun n => (n, eudSq ((g.getNode n).getD default).data cn))

/-- A node record placed at planar position `(x, y)` with neutral dynamic
programming attributes. -/
def ndAt (x y : ℚ) : NodeData :=
  ⟨[x, y], 0, 0, [], 0, 0, "simple"⟩

/-- A concrete edge record: duration 1, reward 3, empty feature vector, a
one-point trajectory segment. -/
def edEx : EdgeData :=
  ⟨1, 3, [], [[0, 0]]⟩

/-- Concrete graph: nodes 0 at (0,0) and 1 at (1,0), one edge 0 → 1. -/
def gA : StateGraph :=
  ⟨2, [(0, ndAt 0 0), (1, ndAt 1 0)], [((0, 1), edEx)]⟩

/-- Concrete graph with a single node 0 at (0,0) and no edges. -/
def gB : StateGraph :=
  ⟨2, [(0, ndAt 0 0)], []⟩

/-- Concrete graph whose nodes were inserted in the order 2, 1, 0, with
nodes 1 and 2 equidistant from node 0. -/
def gC : StateGraph :=
  ⟨2, [(2, ndAt 1 0), (1, ndAt (-1) 0), (0, ndAt 0 0)], []⟩

/-- The empty graph. -/
def gEmpty : StateGraph :=
  ⟨4, [], []⟩

/-- A concrete edge record with a non-empty feature vector. -/
def edF : EdgeData :=
  ⟨1, 3, [1, 0], [[0, 0]]⟩

/-- Concrete graph with one edge 0 → 1 carrying the non-empty feature
vector `[1, 0]`. -/
def gE : StateGraph :=
  ⟨2, [(0, ndAt 0 0), (1, ndAt 1 0)], [((0, 1), edF)]⟩

/-- The graph `gE` after `_compute_policy` with the reward vector `[]`
rewrote its single edge reward to `np.dot([1, 0], []) = 0`. -/
def gE0 : StateGraph :=
  ⟨2, [(0, ndAt 0 0), (1, ndAt 1 0)], [((0, 1), ⟨1, 0, [1, 0], [[0, 0]]⟩)]⟩

/-- A node record with an arbitrary `data` vector and neutral dynamic
programming attributes. -/
def ndVec (v : List ℚ) : NodeData :=
  ⟨v, 0, 0, [], 0, 0, "simple"⟩

/-- Concrete 4-dimensional graph: node 1 is planarly nearest to node 0 but
full-vector farthest (its third component is 5), nodes inserted 0, 1, 2. -/
def gD : StateGraph :=
  ⟨4, [(0, ndVec [0, 0, 0, 0]), (1, ndVec [1, 0, 5, 0]),
    (2, ndVec [2, 0, 0, 0])], []⟩

/-- Squared Euclidean distance over the **full** `data` vectors, written
from the spec's words ("Euclidean distance over their full `data`
vectors") for comparison: the code's `eud` instead reads only the first
two components. -/
def eudSqFull (d1 d2 : List ℚ) : ℚ :=
  ((d1.zip d2).map (fun p => (p.1 - p.2) * (p.1 - p.2))).sum

/-- The other nodes paired with their **full-vector** squared distances in
insertion order: the spec-side reading of `k_nearest` refuted by the
counterexample. -/
def StateGraph.othersFullInInsertionOrder (g : StateGraph) (nid : Nat)
    (cn : List ℚ) : List (Nat × ℚ) :=
  ((g.nodes.map Prod.fst).filter (fun n => n ≠ nid)).map
    (fun n => (n, eudSqFull ((g.getNode n).getD default).data cn))

/-! ### Theorems -/

/-- C1: for the bounded PolicyWalk proposal (two-step variant of base.py and
zero-step variant of graph_birl.py), whenever the input reward vector has
every coordinate in `[-1, 1]` and the retry loop returns on some sequence of
random draws, the returned vector has every coordinate in `[-1, 1]` and
equals the input with exactly one coordinate moved by a step from the menu
(`±delta`, together with `0` in the zero-step variant); all other
coordinates are unchanged. -/
theorem policywalk_bounded_proposal_invariant (zeroStep : Bool) (delta : ℚ)
    (loc res : List ℚ) (draws : List (ℚ × Nat))
    (hloc : ∀ x ∈ loc, -1 ≤ x ∧ x ≤ 1)
    (hdraws : ∀ p ∈ draws, p.1 ∈ pwMenu zeroStep delta)
    (hres : policyWalkPropose true loc draws = some res) :
    (∀ x ∈ res, -1 ≤ x ∧ x ≤ 1) ∧
      ∃ i d x, i < loc.length ∧ d ∈ pwMenu zeroStep delta ∧
        loc[i]? = some x ∧ res = loc.set i (x + d) ∧
        res[i]? = some (x + d) ∧ ∀ j, j ≠ i → res[j]? = loc[j]? := by
  induction draws with
  | nil => simp [policyWalkPropose] at hres
  | cons p rest ih =>
    obtain ⟨d, i⟩ := p
    rw [policyWalkPropose] at hres
    cases hgi : loc[i]? with
    | none => rw [hgi] at hres; exact absurd hres (by simp)
    | some x =>
      rw [hgi] at hres
      simp only [if_true] at hres
      by_cases hb : -1 ≤ x + d ∧ x + d ≤ 1
      · rw [if_pos hb] at hres
        have hres' : loc.set i (x + d) = res := by injection hres
        have hi : i < loc.length := by
          rcases List.getElem?_eq_some_iff.mp hgi with ⟨h, _⟩
          exact h
        constructor
        · intro y hy
          rcases List.mem_or_eq_of_mem_set (hres' ▸ hy) with hmem | heq
          · exact hloc y hmem
          · exact heq ▸ ⟨hb.1, hb.2⟩
        · refine ⟨i, d, x, hi, hdraws (d, i) (List.mem_cons_self _ _), hgi, hres'.symm, ?_, ?_⟩
          · rw [← hres']
            exact List.getElem?_set_self hi
          · intro j hj
            rw [← hres']
            exact List.getElem?_set_ne (fun h => hj h.symm)
      · rw [if_neg hb] at hres
        exact ih (fun p hp => hdraws p (List.mem_cons_of_mem _ hp)) hres

/-- Witness for C1: the two-step bounded proposal on `loc = [0, 0]` with
`delta = 1` and the single draw `(1, 0)` returns `[1, 0]`, and the
theorem's hypotheses hold there. -/
theorem policywalk_bounded_proposal_invariant_witness :
    ((∀ x ∈ ([0, 0] : List ℚ), -1 ≤ x ∧ x ≤ 1) ∧
      (∀ p ∈ ([((1 : ℚ), 0)] : List (ℚ × Nat)), p.1 ∈ pwMenu false 1) ∧
      policyWalkPropose true [0, 0] [((1 : ℚ), 0)] = some [1, 0]) ∧
    ((∀ x ∈ ([1, 0] : List ℚ), -1 ≤ x ∧ x ≤ 1) ∧
      ∃ i d x, i < ([0, 0] : List ℚ).length ∧ d ∈ pwMenu false 1 ∧
        ([0, 0] : List ℚ)[i]? = some x ∧
        ([1, 0] : List ℚ) = ([0, 0] : List ℚ).set i (x + d) ∧
        ([1, 0] : List ℚ)[i]? = some (x + d) ∧
        ∀ j, j ≠ i → ([1, 0] : List ℚ)[j]? = ([0, 0] : List ℚ)[j]?) :=
  ⟨⟨by decide, by decide, by simp [policyWalkPropose]⟩,
    policywalk_bounded_proposal_invariant false 1 [0, 0] [1, 0]
      [((1 : ℚ), 0)] (by decide) (by decide) (by simp [policyWalkPropose])⟩

/-- Helper: rewriting the edge rewards with a `None` reward vector raises
the `np.dot` TypeError as soon as some edge carries a non-empty feature
vector. -/
theorem seaRewardsFromDot_none_error (l : List ((Nat × Nat) × EdgeData))
    (hedge : ∃ e ∈ l, e.2.phi ≠ []) :
    seaRewardsFromDot none l =
      .error "TypeError: unsupported operand for np.dot with None" := by
  induction l with
  | nil => rcases hedge with ⟨e, he, -⟩; exact absurd he (by simp)
  | cons e rest ih =>
    by_cases he : e.2.phi = []
    · have hrest : ∃ f ∈ rest, f.2.phi ≠ [] := by
        rcases hedge with ⟨f, hf, hne⟩
        rcases List.mem_cons.mp hf with rfl | hf2
        · exact absurd he hne
        · exact ⟨f, hf2, hne⟩
      simp only [seaRewardsFromDot, npDotPy, he, List.isEmpty_nil, ih hrest]
      rfl
    · simp only [seaRewardsFromDot, npDotPy, List.isEmpty_iff, if_neg he]
      rfl

/-- Helper: `_compute_policy` with a `None` reward raises the `np.dot`
TypeError whenever the graph has an edge with a non-empty feature vector. -/
theorem compute_policy_none_error (g : StateGraph)
    (hedge : ∃ e ∈ g.edges, e.2.phi ≠ []) :
    GBIRL.compute_policy g none =
      .error "TypeError: unsupported operand for np.dot with None" := by
  rw [GBIRL.compute_policy, seaRewardsFromDot_none_error g.edges hedge]
  rfl

/-- C2 (amended): `GBIRLPolicyWalk.find_next_reward` does return `None` for
every pair of trajectory sets and `solve` therefore holds reward `None`
from the first iteration on; but `solve` does not return `None`: the first
iteration feeds that `None` into `_compute_policy`, whose
`np.dot(phi, None)` raises a TypeError at the first edge with a non-empty
feature vector, so on every graph with such an edge `solve` raises for
every `max_iter >= 1`. -/
theorem gbirl_policywalk_solve_raises_on_none_reward {T : Type}
    (maxIter : Nat) (hIter : 1 ≤ maxIter) (e_trajs : T) (g g1 : StateGraph)
    (initReward : Option (List ℚ)) (policyIter : StateGraph → StateGraph)
    (gen : StateGraph → T)
    (hinit : GBIRL.compute_policy g initReward = .ok g1)
    (hedge : ∃ e ∈ (policyIter g1).edges, e.2.phi ≠ []) :
    (∀ a b : T, GBIRLPolicyWalk.find_next_reward a b = none) ∧
      GBIRL.solveExec g maxIter e_trajs initReward
          (fun a b => GBIRLPolicyWalk.find_next_reward a b) policyIter gen =
        .error "TypeError: unsupported operand for np.dot with None" := by
  refine ⟨fun a b => rfl, ?_⟩
  obtain ⟨n, rfl⟩ : ∃ n, maxIter = n + 1 :=
    ⟨maxIter - 1, (Nat.succ_pred_eq_of_pos hIter).symm⟩
  rw [GBIRL.solveExec, hinit]
  show GBIRL.solveIter policyIter gen e_trajs _ (n + 1) (policyIter g1)
      initReward (gen (policyIter g1)) = _
  rw [GBIRL.solveIter]
  show (GBIRL.compute_policy (policyIter g1) none).bind _ = _
  rw [compute_policy_none_error _ hedge]
  rfl


/-- Helper: broadcasting division by a common scalar divides the sum. -/
theorem sum_npDivAll (l : List ℚ) (s : ℚ) :
    (BirlBase.npDivAll l s).sum = l.sum / s := by
  induction l with
  | nil => simp [BirlBase.npDivAll]
  | cons x xs ih => simp [BirlBase.npDivAll, add_div] at ih ⊢; rw [ih]

/-- Helper: a batch of positive entries normalised by its own sum sums to 1. -/
theorem sum_npDivAll_self (l : List ℚ) (hpos : ∀ x ∈ l, 0 < x) (hne : l ≠ []) :
    (BirlBase.npDivAll l l.sum).sum = 1 := by
  rw [sum_npDivAll]
  exact div_self (List.sum_pos l hpos hne).ne'

/-- C3 (amended): the three reward priors of `birl/base.py` are normalised —
for every non-empty batch the returned vector sums to 1 — given the
positivity facts of the real functions (`exp` positive, `sqrt(2 pi)` and
`sigma` positive).  The `graph_birl.py` copies of the priors are
unnormalised and are excluded (see the counterexample). -/
theorem birlbase_priors_sum_to_one (expQ : ℚ → ℚ) (sqrt2pi sigma : ℚ)
    (r : List ℚ) (hexp : ∀ x, 0 < expQ x) (hsq : 0 < sqrt2pi) (hs : 0 < sigma)
    (hr : r ≠ []) :
    (BirlBase.UniformRewardPrior.call r).sum = 1 ∧
      (BirlBase.GaussianRewardPrior.call expQ sqrt2pi sigma r).sum = 1 ∧
      (BirlBase.LaplacianRewardPrior.call expQ sigma r).sum = 1 := by
  have hrl : r.length ≠ 0 := fun h => hr (List.length_eq_zero.mp h)
  refine ⟨?_, ?_, ?_⟩
  · rw [BirlBase.UniformRewardPrior.call]
    apply sum_npDivAll_self
    · intro x hx
      rw [List.eq_of_mem_replicate hx]
      exact one_pos
    · simpa using hrl
  · rw [BirlBase.GaussianRewardPrior.call]
    apply sum_npDivAll_self
    · intro x hx
      rcases List.mem_map.mp hx with ⟨a, _, rfl⟩
      exact mul_pos (div_pos (hexp _) hsq) hs
    · simpa using hr
  · rw [BirlBase.LaplacianRewardPrior.call]
    apply sum_npDivAll_self
    · intro x hx
      rcases List.mem_map.mp hx with ⟨a, _, rfl⟩
      exact div_pos (hexp _) (by linarith)
    · simpa using hr

/-- Counterexample for C3 as stated: the `graph_birl.py` uniform prior
returns its input unchanged, so on the non-empty batch `[2]` the returned
vector sums to 2, not 1. -/
theorem graphbirl_uniform_prior_not_normalised :
    ([(2 : ℚ)] ≠ []) ∧ (GraphBirl.UniformRewardPrior.call [(2 : ℚ)]).sum ≠ 1 := by
  constructor
  · simp
  · rw [GraphBirl.UniformRewardPrior.call]
    norm_num

/-- Witness for C3 (amended): at `expQ = const 1`, `sqrt2pi = sigma = 1`
and batch `[0]`, the hypotheses hold and all three base.py priors sum to 1. -/
theorem birlbase_priors_sum_to_one_witness :
    ((∀ x : ℚ, 0 < (fun _ : ℚ => (1 : ℚ)) x) ∧ (0 : ℚ) < 1 ∧ (0 : ℚ) < 1 ∧
      ([(0 : ℚ)] ≠ [])) ∧
    ((BirlBase.UniformRewardPrior.call [(0 : ℚ)]).sum = 1 ∧
      (BirlBase.GaussianRewardPrior.call (fun _ => 1) 1 1 [(0 : ℚ)]).sum = 1 ∧
      (BirlBase.LaplacianRewardPrior.call (fun _ => 1) 1 [(0 : ℚ)]).sum = 1) :=
  ⟨⟨fun _ => one_pos, one_pos, one_pos, by simp⟩,
    birlbase_priors_sum_to_one (fun _ => 1) 1 1 [0]
      (fun _ => one_pos) one_pos one_pos (by simp)⟩

/-- C4 (code bug): `remove_edge` on a self loop warns but then still calls
`self.G.remove_edge`, which raises `NetworkXError` because no self loop can
exist (`add_edge` rejects them); on the concrete graph `gA` the call errors
instead of the claimed warn-and-continue no-op. -/
theorem remove_edge_self_loop_raises :
    gA.remove_edge 0 0 =
        .error "NetworkXError: the edge is no longer in the graph" ∧
      gA.hasEdge 0 0 = false := by
  constructor <;> rfl

/-- C5 (code bug): `get_signal` admits the name "policy" through its own
allow-list, but the per-node read `gna(n, 'policy')` fails its
`_node_attrs` assert (the stored attribute is named "pi"), so on any graph
with at least one node the call raises; the sibling signal "V" succeeds
with one value per node. -/
theorem get_signal_policy_raises :
    gB.get_signal "policy" = .error "AssertionError: invalid attribute" ∧
      gB.get_signal "V" = .ok [.num 0] := by
  constructor <;> rfl

/-- C6 (code bug): `find_neighbors_range` removes the queried node from the
search set (`set(self.G.nodes()) - {nid}`) although its own docstring says
the result includes self; on `gA`, querying node 0 with radius 2 returns
only node 1. -/
theorem find_neighbors_range_excludes_self :
    gA.find_neighbors_range 0 2 = some [1] ∧ ¬ ((0 : Nat) ∈ [1]) := by
  refine ⟨?_, by decide⟩
  simp [StateGraph.find_neighbors_range, gA, ndAt, StateGraph.getNode,
    StateGraph.nodeIds, pySet, List.find?, List.dedup, eudLe, eudSq]
  norm_num

/-- C8: calling `add_edge` with `source == target` or for an already
existing ordered pair (with the duration and trajectory asserts satisfied)
returns the graph unchanged together with exactly one warning: the edge
list, and hence the edge set, edge count and all attributes, are untouched. -/
theorem add_edge_conflict_is_noop (g : StateGraph) (source target : Nat)
    (duration reward : ℚ) (phi : List ℚ) (traj : List (List ℚ))
    (hdur : 0 ≤ duration) (htraj : isNdim2 traj = true)
    (hconf : source = target ∨ g.hasEdge source target = true) :
    ∃ w, g.add_edge source target duration reward phi traj = .ok (g, [w]) := by
  rw [StateGraph.add_edge, if_neg (not_not_intro hdur),
    if_neg (not_not_intro htraj)]
  rcases hconf with h | h
  · rw [if_pos h]
    exact ⟨_, rfl⟩
  · by_cases hst : source = target
    · rw [if_pos hst]
      exact ⟨_, rfl⟩
    · rw [if_neg hst, if_neg (not_not_intro h)]
      exact ⟨_, rfl⟩

/-- Witness for C8: adding the self loop 0 → 0 to `gA` with duration 1 and a
2-dim trajectory leaves `gA` unchanged and emits one warning. -/
theorem add_edge_conflict_is_noop_witness :
    ((0 : ℚ) ≤ 1 ∧ isNdim2 [[0, 0]] = true ∧
      ((0 : Nat) = 0 ∨ gA.hasEdge 0 0 = true)) ∧
    ∃ w, gA.add_edge 0 0 1 0 [] [[0, 0]] = .ok (gA, [w]) :=
  ⟨⟨by norm_num, rfl, Or.inl rfl⟩,
    add_edge_conflict_is_noop gA 0 0 1 0 [] [[0, 0]] (by norm_num) rfl
      (Or.inl rfl)⟩

/-- C9: the expert trajectory-quality evaluator on a length-1 trajectory
whose node has no outgoing edges returns exactly the terminal constant
`gr = 100`: elapsed time is 0 and the real power satisfies
`gamma ** 0 = 1`, so no discount is applied. -/
theorem traj_quality_terminal_is_gr (g : StateGraph) (gpow : ℚ → ℚ)
    (reward : List ℚ) (n : Nat) (hg : gpow 0 = 1)
    (hterm : g.out_edges n = []) :
    expert_trajectory_quality g gpow reward [[n]] = [some 100] := by
  simp [expert_trajectory_quality, trajQualityGo, hterm, hg]

/-- Witness for C9: on the empty graph, node 0 is terminal and the single
length-1 expert trajectory scores exactly 100. -/
theorem traj_quality_terminal_is_gr_witness :
    ((fun _ : ℚ => (1 : ℚ)) 0 = 1 ∧ gEmpty.out_edges 0 = []) ∧
    expert_trajectory_quality gEmpty (fun _ => 1) [] [[0]] = [some 100] :=
  ⟨⟨rfl, rfl⟩, traj_quality_terminal_is_gr gEmpty (fun _ => 1) [] 0 rfl rfl⟩

/-- Helper: a successful attribute lookup on an edge implies the edge
existence test succeeds. -/
theorem hasEdge_of_getEdge {g : StateGraph} {s t : Nat} {ed : EdgeData}
    (h : g.getEdge s t = some ed) : g.hasEdge s t = true := by
  rw [StateGraph.getEdge] at h
  rw [StateGraph.hasEdge]
  cases hf : g.edges.find? (fun e => e.1 = (s, t)) with
  | none => rw [hf] at h; simp at h
  | some e =>
    have hmem := List.mem_of_find?_eq_some hf
    have hpred := List.find?_some hf
    rw [List.any_eq_true]
    exact ⟨e, hmem, hpred⟩

/-- C10: the `metric` closure handed to the A* search in `search_path`
ignores both of its arguments: on every argument pair it returns
`-reward` of the fixed `(source, target)` edge of the enclosing call when
that edge exists, and the constant 1000 otherwise. -/
theorem search_path_metric_constant (g : StateGraph) (source target : Nat)
    (a b a2 b2 : Nat) :
    g.search_path_metric source target a b =
        g.search_path_metric source target a2 b2 ∧
      (∀ ed, g.getEdge source target = some ed →
        g.search_path_metric source target a b = -1 * ed.reward) ∧
      (g.hasEdge source target = false →
        g.search_path_metric source target a b = 1000) := by
  refine ⟨rfl, ?_, ?_⟩
  · intro ed hed
    rw [StateGraph.search_path_metric, if_pos (hasEdge_of_getEdge hed), hed]
    rfl
  · intro hno
    rw [StateGraph.search_path_metric, hno]
    rfl

/-- Witness for C10: on `gA` the metric of the search from 0 to 1 evaluates
to `-reward = -3` at two unrelated argument pairs, and the metric of the
search from 1 to 0 (no such edge) is 1000. -/
theorem search_path_metric_constant_witness :
    (gA.search_path_metric 0 1 4 5 = gA.search_path_metric 0 1 6 7 ∧
      gA.search_path_metric 0 1 4 5 = -1 * (3 : ℚ)) ∧
    gA.search_path_metric 1 0 4 5 = 1000 :=
  ⟨⟨(search_path_metric_constant gA 0 1 4 5 6 7).1,
      (search_path_metric_constant gA 0 1 4 5 6 7).2.1 edEx rfl⟩,
    (search_path_metric_constant gA 1 0 4 5 6 7).2.2 rfl⟩

/-- C7 (amended): `find_neighbors_k` returns the first `k` identifiers of
the ranking of all other nodes sorted ascending by the **planar** Euclidean
distance `eud`, which reads only the first two components of the `data`
vectors (not the full vectors), with ties broken by the set-iteration order
of the identifiers (ascending numeric order for the small integer ids used
here), **not** by insertion order; for `k` at least the number of other
nodes it returns the whole ranking.  Sortedness is with respect to the
lexicographic (planar distance, id) comparison via `eudSq`/`distLex`, and
the ranking is a permutation of the other nodes with their planar
distances. -/
theorem find_neighbors_k_ranking (g : StateGraph) (nid : Nat) (nd : NodeData)
    (h : g.getNode nid = some nd) :
    List.Sorted distLex (rankingOf g nid nd.data) ∧
      (rankingOf g nid nd.data).Perm (g.othersWithDist nid nd.data) ∧
      (∀ k, g.find_neighbors_k nid k =
        some (((rankingOf g nid nd.data).take k).map Prod.fst)) ∧
      (∀ k, (g.othersWithDist nid nd.data).length ≤ k →
        g.find_neighbors_k nid k =
          some ((rankingOf g nid nd.data).map Prod.fst)) := by
  refine ⟨List.sorted_insertionSort distLex _,
    List.perm_insertionSort distLex _, ?_, ?_⟩
  · intro k
    rw [StateGraph.find_neighbors_k, h, rankingOf]
    rfl
  · intro k hk
    rw [StateGraph.find_neighbors_k, h, rankingOf]
    have hlen : (List.insertionSort distLex (g.othersWithDist nid nd.data)).length ≤ k := by
      rw [(List.perm_insertionSort distLex _).length_eq]
      exact hk
    rw [Option.map_some', List.take_of_length_le hlen]

/-- Counterexample for C7 as stated, refuting both of its readings.
Tie-break: in `gC` the nodes were inserted in the order 2, 1, 0 and nodes 1
and 2 are equidistant from node 0; the insertion-order stable sort
predicted by the claim yields [2, 1], but `find_neighbors_k(0, 2)` returns
[1, 2] (ids ascending).  Metric: in the 4-dimensional graph `gD` node 1 is
the full-vector farthest from node 0 (its distance ranking by the claim's
"full `data` vectors" yields [2, 1]) yet `eud` reads only the first two
components, so `find_neighbors_k(0, 2)` returns [1, 2]. -/
theorem find_neighbors_k_tiebreak_not_insertion_order :
    (gC.find_neighbors_k 0 2 = some [1, 2] ∧
      ((stableSortByDist (gC.othersInInsertionOrder 0 [0, 0])).take 2).map
          Prod.fst = [2, 1]) ∧
      (gD.find_neighbors_k 0 2 = some [1, 2] ∧
        ((stableSortByDist (gD.othersFullInInsertionOrder 0 [0, 0, 0, 0])).take 2).map
            Prod.fst = [2, 1]) ∧
      ([1, 2] : List Nat) ≠ [2, 1] := by
  refine ⟨⟨?_, ?_⟩, ⟨?_, ?_⟩, by decide⟩
  · simp [StateGraph.find_neighbors_k, gC, ndAt, StateGraph.getNode,
      StateGraph.othersWithDist, StateGraph.nodeIds, pySet, List.find?,
      List.dedup, eudSq, List.insertionSort, List.orderedInsert, distLex]
  · simp [StateGraph.othersInInsertionOrder, gC, ndAt, StateGraph.getNode,
      StateGraph.nodeIds, List.find?, eudSq, stableSortByDist,
      List.insertionSort, List.orderedInsert]
  · simp [StateGraph.find_neighbors_k, gD, ndVec, StateGraph.getNode,
      StateGraph.othersWithDist, StateGraph.nodeIds, pySet, List.find?,
      List.dedup, eudSq, List.insertionSort, List.orderedInsert, distLex]
    norm_num
  · simp [StateGraph.othersFullInInsertionOrder, gD, ndVec,
      StateGraph.getNode, StateGraph.nodeIds, List.find?, eudSqFull,
      stableSortByDist, List.insertionSort, List.orderedInsert]
    norm_num

/-- Witness for C7 (amended): the ranking properties instantiated on the
concrete graph `gC` at node 0. -/
theorem find_neighbors_k_ranking_witness :
    (gC.getNode 0 = some (ndAt 0 0)) ∧
    (List.Sorted distLex (rankingOf gC 0 (ndAt 0 0).data) ∧
      (rankingOf gC 0 (ndAt 0 0).data).Perm
        (gC.othersWithDist 0 (ndAt 0 0).data) ∧
      (∀ k, gC.find_neighbors_k 0 k =
        some (((rankingOf gC 0 (ndAt 0 0).data).take k).map Prod.fst)) ∧
      (∀ k, (gC.othersWithDist 0 (ndAt 0 0).data).length ≤ k →
        gC.find_neighbors_k 0 k =
          some ((rankingOf gC 0 (ndAt 0 0).data).map Prod.fst))) :=
  ⟨rfl, find_neighbors_k_ranking gC 0 (ndAt 0 0) rfl⟩

/-- Counterexample for C2 as stated: on the concrete graph `gE` (one edge
with feature vector `[1, 0]`), with `max_iter = 1`, an initial reward `[]`
and the external collaborators as identity/constant, `solve` raises the
`np.dot(phi, None)` TypeError in its first iteration instead of returning
`None`. -/
theorem gbirl_policywalk_solve_raises_counterexample :
    GBIRL.solveExec gE 1 (0 : Nat) (some [])
        (fun a b => GBIRLPolicyWalk.find_next_reward a b) id
        (fun _ => (0 : Nat)) =
      .error "TypeError: unsupported operand for np.dot with None" ∧
    GBIRL.solveExec gE 1 (0 : Nat) (some [])
        (fun a b => GBIRLPolicyWalk.find_next_reward a b) id
        (fun _ => (0 : Nat)) ≠ .ok none := by
  have h1 : GBIRL.solveExec gE 1 (0 : Nat) (some [])
      (fun a b => GBIRLPolicyWalk.find_next_reward a b) id
      (fun _ => (0 : Nat)) =
      .error "TypeError: unsupported operand for np.dot with None" := rfl
  refine ⟨h1, ?_⟩
  rw [h1]
  intro h
  exact Except.noConfusion h

/-- Witness for C2 (amended): on `gE` with `max_iter = 1` the hypotheses
hold (`_compute_policy` on the initial reward `[]` succeeds, producing
`gE0`, whose edge keeps the non-empty feature vector) and `solve` raises. -/
theorem gbirl_policywalk_solve_raises_on_none_reward_witness :
    ((1 ≤ 1) ∧ GBIRL.compute_policy gE (some []) = .ok gE0 ∧
      (∃ e ∈ (id gE0).edges, e.2.phi ≠ [])) ∧
    ((∀ a b : Nat, GBIRLPolicyWalk.find_next_reward a b = none) ∧
      GBIRL.solveExec gE 1 (0 : Nat) (some [])
          (fun a b => GBIRLPolicyWalk.find_next_reward a b) id
          (fun _ => (0 : Nat)) =
        .error "TypeError: unsupported operand for np.dot with None") :=
  ⟨⟨by decide, rfl, by decide⟩,
    gbirl_policywalk_solve_raises_on_none_reward 1 (by decide) 0 gE gE0
      (some []) id (fun _ => 0) rfl (by decide)⟩
